import Mathlib

/-
Verification of the client-side caching / staleness-tolerant refresh logic of
the ai-ops dashboard (`LogTypesDashboard` in static/js/log-types.js, with the
Tailwind variant's `getPercentage` and `renderRecentErrors`).  The JavaScript
is shallowly embedded: the volatile `Map` cache and the `localStorage` store
become explicit finite maps (functions to `Option`), `Date.now()` becomes an
explicit `now : Int` argument, and the async `fetch` outcome becomes an
explicit `FetchResult` oracle argument.
-/

namespace AiOps

/-- One entry of a count mapping coming from the API (JS object of numbers). -/
abbrev StrMap := List (String × Nat)

/-- One record of `recent_errors` (fields that the renderers read; all may be
absent in a raw response). -/
structure ErrorRec where
  timestamp : Option String
  level : Option String
  instanceName : Option String
  message : Option String
  category : Option String
deriving DecidableEq

/-- The normalized data snapshot produced by `loadData` (lines 83-94 of
log-types.js): every required field is present. -/
structure Snapshot where
  total_logs : Nat
  cleaned_logs_count : Nat
  time_range : String
  processing_status : String
  business_modules : StrMap
  error_categories : StrMap
  error_types : StrMap
  severity_distribution : StrMap
  recent_errors : List ErrorRec
  cleaning_summary : StrMap
deriving DecidableEq

/-- A raw API response before normalization: every field may be missing. -/
structure RawResponse where
  total_logs : Option Nat
  cleaned_logs_count : Option Nat
  time_range : Option String
  processing_status : Option String
  business_modules : Option StrMap
  error_categories : Option StrMap
  error_types : Option StrMap
  severity_distribution : Option StrMap
  recent_errors : Option (List ErrorRec)
  cleaning_summary : Option StrMap
deriving DecidableEq

/-- JS `v || d` for a number field: `undefined` and `0` are falsy (for the
default 0 used by the code this coincides with plain defaulting). -/
def jsOrNat (v : Option Nat) (d : Nat) : Nat :=
  match v with
  | none => d
  | some n => if n = 0 then d else n

/-- JS `v || d` for a string field: `undefined` and the empty string are
falsy. -/
def jsOrStr (v : Option String) (d : String) : String :=
  match v with
  | none => d
  | some s => if s = "" then d else s

/-- The normalization block of `loadData` (log-types.js lines 83-94): fill
every required field with its default when absent (objects and arrays are
truthy in JS when present, so only a missing field is defaulted). -/
def normalize (r : RawResponse) : Snapshot where
  total_logs := jsOrNat r.total_logs 0
  cleaned_logs_count := jsOrNat r.cleaned_logs_count 0
  time_range := jsOrStr r.time_range "最近1分钟"
  processing_status := jsOrStr r.processing_status "unknown"
  business_modules := r.business_modules.getD []
  error_categories := r.error_categories.getD []
  error_types := r.error_types.getD []
  severity_distribution := r.severity_distribution.getD []
  recent_errors := r.recent_errors.getD []
  cleaning_summary := r.cleaning_summary.getD []

/-- The default snapshot installed by the catch branch of `loadData`
(log-types.js lines 115-126) when no fallback cache entry exists. -/
def defaultSnapshot : Snapshot where
  total_logs := 0
  cleaned_logs_count := 0
  time_range := "最近1分钟"
  processing_status := "error"
  business_modules := []
  error_categories := []
  error_types := []
  severity_distribution := []
  recent_errors := []
  cleaning_summary := []

/-! ### Constants (constructor of LogTypesDashboard, lines 5-10) -/

/-- `this.cacheTimeout = 30000` (30 s volatile cache expiry). -/
def cacheTimeout : Int := 30000

/-- `this.minRequestInterval = 5000` (minimum interval between requests). -/
def minRequestInterval : Int := 5000

/-- `this.localCacheTTL = 60000` (persistent localStorage cache TTL). -/
def localCacheTTL : Int := 60000

/-! ### Volatile cache (`this.cache`, a JS `Map`) -/

/-- A volatile cache entry `{ data, timestamp }` as stored by
`setCachedData`. -/
structure CacheEntry where
  data : Snapshot
  timestamp : Int
deriving DecidableEq

/-- The volatile in-memory cache, `this.cache : Map`. -/
abbrev CacheMap := String → Option CacheEntry

/-- `getCachedData(key)` (log-types.js lines 364-381): return the stored data
only while `Date.now() - cached.timestamp < this.cacheTimeout`. -/
def getCachedData (cache : CacheMap) (key : String) (now : Int) : Option Snapshot :=
  match cache key with
  | some cached => if now - cached.timestamp < cacheTimeout then some cached.data else none
  | none => none

/-- `setCachedData(key, data)` (log-types.js lines 383-397): store
`{ data, timestamp: Date.now() }` under the key, replacing any older entry. -/
def setCachedData (cache : CacheMap) (key : String) (d : Snapshot) (now : Int) : CacheMap :=
  fun k => if k = key then some ⟨d, now⟩ else cache k

/-- `this.cache.delete(cacheKey)` as performed by `refreshData`
(log-types.js line 452). -/
def deleteCached (cache : CacheMap) (key : String) : CacheMap :=
  fun k => if k = key then none else cache k

/-! ### Persistent fallback cache (`localStorage`) -/

/-- What a `localStorage` slot can hold after `JSON.parse`: either unreadable
or malformed JSON (`JSON.parse` throws, or the result is not the expected
object — the thrown case is caught by the surrounding `try`), or a parsed
record whose `timestamp` / `data` fields may each be missing. -/
inductive LSVal where
  | malformed
  | record (timestamp : Option Int) (data : Option Snapshot)
deriving DecidableEq

/-- The persistent store: `localStorage`, one slot per key. -/
abbrev LocalStore := String → Option LSVal

/-- `getLocalCachedData(key, allowStale)` (log-types.js lines 400-412):
missing slot, unparseable JSON, a falsy `timestamp` (absent or `0`) or a
missing `data` field all yield `null`; otherwise the payload is returned if
`Date.now() - obj.timestamp < this.localCacheTTL` or `allowStale` holds. -/
def getLocalCachedData (store : LocalStore) (key : String) (now : Int)
    (allowStale : Bool) : Option Snapshot :=
  match store key with
  | none => none
  | some .malformed => none
  | some (.record ts dat) =>
    match ts, dat with
    | some t, some d =>
      if t = 0 then none
      else if now - t < localCacheTTL || allowStale then some d else none
    | _, _ => none

/-- `setLocalCachedData(key, data)` (log-types.js lines 414-420):
`localStorage.setItem` of `{ data, timestamp: Date.now() }`; a write failure
(quota exceeded, etc.) is swallowed by the `try`/`catch`, leaving the store
unchanged.  `writeOk` models whether the durable write succeeds. -/
def setLocalCachedData (writeOk : Bool) (store : LocalStore) (key : String)
    (d : Snapshot) (now : Int) : LocalStore :=
  if writeOk then
    fun k => if k = key then some (.record (some now) (some d)) else store k
  else store

/-! ### Rate limiter -/

/-- The rate-limit test of `loadData` (log-types.js lines 57-61): a fetch is
allowed unless `now - this.lastRequestTime < this.minRequestInterval`. -/
def canFetchNow (lastRequestTime now : Int) : Bool :=
  if now - lastRequestTime < minRequestInterval then false else true

/-! ### Refresh orchestrator (`loadData` / `refreshData`) -/

/-- The mutable fields of the dashboard instance that `loadData` touches. -/
structure DashState where
  cache : CacheMap
  store : LocalStore
  lastRequestTime : Int
  data : Option Snapshot

/-- Outcome oracle for the `fetch` call of `loadData`: a successful 2xx
response with a JSON object body, or any failure (network error, non-2xx
status, non-object body) — all failures end in the same `catch` branch. -/
inductive FetchResult where
  | success (raw : RawResponse)
  | failure
deriving DecidableEq

/-- Which branch of `loadData` handled the request. -/
inductive Branch where
  | servedLocal
  | servedVolatile
  | rateLimited
  | fetchedOk
  | fetchedFallback
  | fetchedError
deriving DecidableEq

/-- The observable result of one `loadData` run: the updated instance state,
whether a network request was issued (`didFetch`), whether
`setTimeout(() => this.refreshData(), 0)` was scheduled
(`scheduledRefresh`), and whether `showError` was called (`errorShown` — the
only user-facing indicator `loadData` ever surfaces). -/
structure LoadResult where
  state : DashState
  didFetch : Bool
  scheduledRefresh : Bool
  errorShown : Bool
  branch : Branch

/-- `loadData()` (log-types.js lines 22-129).  In source order:
1. a fresh persistent-cache hit is served at once and a background
   `refreshData` is scheduled via `setTimeout(..., 0)`;
2. a fresh volatile-cache hit is served;
3. the rate-limit guard returns without fetching;
4. otherwise a live fetch runs: on success the response is normalized,
   both caches are updated and `lastRequestTime` is recorded; on failure
   the stale persistent entry is served if present, else `showError` is
   called and the default snapshot installed. -/
def loadData (s : DashState) (key : String) (now : Int) (out : FetchResult)
    (writeOk : Bool) : LoadResult :=
  match getLocalCachedData s.store key now false with
  | some localCached =>
    ⟨{ s with data := some localCached }, false, true, false, .servedLocal⟩
  | none =>
    match getCachedData s.cache key now with
    | some cachedData =>
      ⟨{ s with data := some cachedData }, false, false, false, .servedVolatile⟩
    | none =>
      if now - s.lastRequestTime < minRequestInterval then
        ⟨s, false, false, false, .rateLimited⟩
      else
        match out with
        | .success raw =>
          let d := normalize raw
          ⟨{ cache := setCachedData s.cache key d now
             store := setLocalCachedData writeOk s.store key d now
             lastRequestTime := now
             data := some d }, true, false, false, .fetchedOk⟩
        | .failure =>
          match getLocalCachedData s.store key now true with
          | some fallback =>
            ⟨{ s with data := some fallback }, true, false, false, .fetchedFallback⟩
          | none =>
            ⟨{ s with data := some defaultSnapshot }, true, false, true, .fetchedError⟩

/-- `refreshData()` (log-types.js lines 449-456): delete the volatile cache
entry for the current key, then re-run `loadData` (the render step carries no
cache or network logic and is omitted). -/
def refreshData (s : DashState) (key : String) (now : Int) (out : FetchResult)
    (writeOk : Bool) : LoadResult :=
  loadData { s with cache := deleteCached s.cache key } key now out writeOk

/-! ### Renderer (recent-errors panel) -/

/-- Abstracted DOM output of the recent-errors panel: either the empty-state
block or a table of rows. -/
inductive RecentErrorsView where
  | emptyState (message : String)
  | table (rows : List ErrorRec)
deriving DecidableEq

/-- `renderRecentErrors()` of the Tailwind variant (part_001 lines 321-375):
with no errors it renders the 暂无错误日志 empty state, otherwise a table of
the first 10 error records. -/
def renderRecentErrors (s : Snapshot) : RecentErrorsView :=
  if s.recent_errors.isEmpty then .emptyState "暂无错误日志"
  else .table (s.recent_errors.take 10)

/-! ### `escapeHtml` (log-types.js lines 860-868) -/

/-- The double-quote character, written via its code point. -/
def quotChar : Char := Char.ofNat 34

/-- The single-quote character, written via its code point. -/
def aposChar : Char := Char.ofNat 39

/-- Replacement text for `&`. -/
def entAmp : List Char := ['&', 'a', 'm', 'p', ';']

/-- Replacement text for `<`. -/
def entLt : List Char := ['&', 'l', 't', ';']

/-- Replacement text for `>`. -/
def entGt : List Char := ['&', 'g', 't', ';']

/-- Replacement text for the double quote. -/
def entQuot : List Char := ['&', 'q', 'u', 'o', 't', ';']

/-- Replacement text for the single quote. -/
def entApos : List Char := ['&', '#', '3', '9', ';']

/-- `str.replace(/c/g, rep)` for a single-character global pattern: every
occurrence of `c` is replaced by `rep`. -/
def replaceChar (c : Char) (rep : List Char) (s : List Char) : List Char :=
  s.flatMap fun x => if x = c then rep else [x]

/-- `escapeHtml(str)` (log-types.js lines 860-868): `null`/`undefined` become
the empty string; otherwise the five global replacements are applied in
source order (`&` first, then `<`, `>`, `"`, `'`). -/
def escapeHtml (str : Option (List Char)) : List Char :=
  match str with
  | none => []
  | some s =>
    replaceChar aposChar entApos
      (replaceChar quotChar entQuot
        (replaceChar '>' entGt
          (replaceChar '<' entLt
            (replaceChar '&' entAmp s))))

/-- Single-pass characterization of the five sequential replacements: each
input character maps to its entity (or itself). -/
def escChar (c : Char) : List Char :=
  if c = '&' then entAmp
  else if c = '<' then entLt
  else if c = '>' then entGt
  else if c = quotChar then entQuot
  else if c = aposChar then entApos
  else [c]

/-- A character list is properly escaped: it is a concatenation of safe
characters (none of the five specials) and complete entities, so every `&`
begins an entity and no raw `<`, `>`, `"`, `'` occurs. -/
inductive Escaped : List Char → Prop where
  | nil : Escaped []
  | safe {c : Char} {s : List Char} :
      c ≠ '&' → c ≠ '<' → c ≠ '>' → c ≠ quotChar → c ≠ aposChar →
      Escaped s → Escaped (c :: s)
  | ent {e s : List Char} :
      e ∈ [entAmp, entLt, entGt, entQuot, entApos] →
      Escaped s → Escaped (e ++ s)

/-! ### `getPercentage` (part_001 lines 484-487)

JS numbers are modelled as exact rationals. -/

/-- `Object.values(obj).reduce((sum, val) => sum + val, 0)`: a left fold of
the mapping's count values starting from 0. -/
def sumValsAux (acc : ℚ) : StrMap → ℚ
  | [] => acc
  | p :: rest => sumValsAux (acc + (p.2 : ℚ)) rest

/-- Sum of the values of a count mapping. -/
def sumVals (m : StrMap) : ℚ := sumValsAux 0 m

/-- Models `Number.prototype.toFixed(1)` on an exact rational: round to the
nearest tenth, ties toward the larger value, as ECMA-262 prescribes. -/
def toFixed1 (x : ℚ) : ℚ := (round (x * 10) : ℚ) / 10

/-- `getPercentage(value, obj)` (part_001 lines 484-487):
`total > 0 ? ((value / total) * 100).toFixed(1) : 0`. -/
def getPercentage (value : ℚ) (m : StrMap) : ℚ :=
  let total := sumVals m
  if 0 < total then toFixed1 (value / total * 100) else 0

/-! ## Helper lemmas -/

theorem getCachedData_delete (cache : CacheMap) (key : String) (now : Int) :
    getCachedData (deleteCached cache key) key now = none := by
  simp [getCachedData, deleteCached]

/-- A persistent-cache read that misses in fresh mode keeps missing at any
later time: freshness only decays. -/
theorem getLocal_none_mono (store : LocalStore) (key : String) (t0 t1 : Int)
    (h01 : t0 ≤ t1) (h : getLocalCachedData store key t0 false = none) :
    getLocalCachedData store key t1 false = none := by
  unfold getLocalCachedData at h ⊢
  cases hs : store key with
  | none => rfl
  | some v =>
    rw [hs] at h
    cases v with
    | malformed => rfl
    | record ts dat =>
      cases ts with
      | none => cases dat <;> rfl
      | some t =>
        cases dat with
        | none => rfl
        | some d =>
          by_cases ht : t = 0
          · simp [ht]
          · simp only [ht, if_false, Bool.or_false, decide_eq_true_eq, ite_eq_right_iff,
              reduceCtorEq, imp_false] at h ⊢
            omega

/-! ## Claim theorems -/

/-- C4: a volatile-cache `get` within the 30000 ms TTL returns exactly the
last-`set` payload; once `now - fetchedAt` is no longer strictly below the
TTL, `get` returns absent. -/
theorem c4_volatile_ttl (cache : CacheMap) (key : String) (d : Snapshot)
    (tset tget : Int) :
    (tget - tset < cacheTimeout →
      getCachedData (setCachedData cache key d tset) key tget = some d) ∧
    (cacheTimeout ≤ tget - tset →
      getCachedData (setCachedData cache key d tset) key tget = none) := by
  constructor
  · intro h
    simp [getCachedData, setCachedData, h]
  · intro h
    have hn : ¬ (tget - tset < cacheTimeout) := not_lt.mpr h
    simp [getCachedData, setCachedData, hn]

/-- C4 witness: Scenario B — entry stored at t = 0, `get` at t = 29999
returns the data; `get` at t = 30001 returns absent. -/
theorem c4_witness :
    ((29999 : Int) - 0 < cacheTimeout ∧
      getCachedData (setCachedData (fun _ => none) "log_analysis_1" defaultSnapshot 0)
        "log_analysis_1" 29999 = some defaultSnapshot) ∧
    (cacheTimeout ≤ (30001 : Int) - 0 ∧
      getCachedData (setCachedData (fun _ => none) "log_analysis_1" defaultSnapshot 0)
        "log_analysis_1" 30001 = none) :=
  ⟨⟨by decide,
    (c4_volatile_ttl (fun _ => none) "log_analysis_1" defaultSnapshot 0 29999).1 (by decide)⟩,
   ⟨by decide,
    (c4_volatile_ttl (fun _ => none) "log_analysis_1" defaultSnapshot 0 30001).2 (by decide)⟩⟩

/-- C5: a persistent-cache entry (with a genuine positive timestamp, as
`Date.now()` always produces) whose age is at least the 60000 ms TTL is
absent for `allowStale = false` but its payload is returned for
`allowStale = true`. -/
theorem c5_persistent_stale_read (store : LocalStore) (key : String)
    (d : Snapshot) (t now : Int)
    (hstore : store key = some (.record (some t) (some d)))
    (htpos : 0 < t) (hstale : localCacheTTL ≤ now - t) :
    getLocalCachedData store key now false = none ∧
    getLocalCachedData store key now true = some d := by
  have ht0 : ¬ (t = 0) := by omega
  have hfresh : ¬ (now - t < localCacheTTL) := not_lt.mpr hstale
  constructor <;> simp [getLocalCachedData, hstore, ht0, hfresh]

/-- C5 witness: Scenario C — an entry 90000 ms old (timestamp 1, read at
90001) is absent in fresh mode and returned in stale mode. -/
theorem c5_witness :
    ((fun k => if k = "log_analysis_1" then
        some (LSVal.record (some 1) (some defaultSnapshot)) else none) "log_analysis_1"
      = some (LSVal.record (some 1) (some defaultSnapshot)) ∧
     (0 : Int) < 1 ∧ localCacheTTL ≤ (90001 : Int) - 1) ∧
    (getLocalCachedData (fun k => if k = "log_analysis_1" then
        some (LSVal.record (some 1) (some defaultSnapshot)) else none)
        "log_analysis_1" 90001 false = none ∧
     getLocalCachedData (fun k => if k = "log_analysis_1" then
        some (LSVal.record (some 1) (some defaultSnapshot)) else none)
        "log_analysis_1" 90001 true = some defaultSnapshot) :=
  ⟨⟨by decide, by decide, by decide⟩,
   c5_persistent_stale_read _ "log_analysis_1" defaultSnapshot 1 90001
     (by decide) (by decide) (by decide)⟩

/-- C8: any failing durable read — missing slot, unreadable or malformed
stored JSON, or a record missing its `timestamp` or `data` field — behaves
as a cache miss, and a failing durable write leaves the store untouched;
none of these propagates an error. -/
theorem c8_durable_failure_miss (store : LocalStore) (key : String)
    (now : Int) (b : Bool) :
    (store key = none → getLocalCachedData store key now b = none) ∧
    (store key = some .malformed → getLocalCachedData store key now b = none) ∧
    (∀ dat, store key = some (.record none dat) →
      getLocalCachedData store key now b = none) ∧
    (∀ ts, store key = some (.record ts none) →
      getLocalCachedData store key now b = none) ∧
    (∀ d, setLocalCachedData false store key d now = store) := by
  refine ⟨fun h => ?_, fun h => ?_, fun dat h => ?_, fun ts h => ?_, fun d => ?_⟩
  · simp [getLocalCachedData, h]
  · simp [getLocalCachedData, h]
  · cases dat <;> simp [getLocalCachedData, h]
  · cases ts <;> simp [getLocalCachedData, h]
  · rfl

/-- C8 witness: a store holding malformed JSON at the key misses in both
modes, and a failed write is a no-op. -/
theorem c8_witness :
    ((fun k => if k = "log_analysis_1" then some LSVal.malformed else none)
        "log_analysis_1" = some LSVal.malformed) ∧
    (getLocalCachedData (fun k => if k = "log_analysis_1" then some LSVal.malformed else none)
        "log_analysis_1" 1000 true = none ∧
     setLocalCachedData false (fun k => if k = "log_analysis_1" then some LSVal.malformed else none)
        "log_analysis_1" defaultSnapshot 1000
      = (fun k => if k = "log_analysis_1" then some LSVal.malformed else none)) :=
  ⟨by decide,
   (c8_durable_failure_miss _ "log_analysis_1" 1000 true).2.1 (by decide),
   (c8_durable_failure_miss _ "log_analysis_1" 1000 true).2.2.2.2 defaultSnapshot⟩

/-- C6: with `minInterval = 5000`, once a fetch time `t` is recorded, an
attempt strictly less than 5000 ms later is denied and no network request is
made by `loadData`, while an attempt 5000 ms or more later is allowed; a
`loadData` run that performs a successful fetch at `t` records `t`, so a
second permission check within the window is denied. -/
theorem c6_rate_limiter (t tn : Int) :
    (tn - t < minRequestInterval → canFetchNow t tn = false) ∧
    (minRequestInterval ≤ tn - t → canFetchNow t tn = true) ∧
    (∀ (s : DashState) (key : String) (out : FetchResult) (w : Bool),
      s.lastRequestTime = t → tn - t < minRequestInterval →
      (loadData s key tn out w).didFetch = false) ∧
    (∀ (s : DashState) (key : String) (raw : RawResponse) (w : Bool),
      getLocalCachedData s.store key t false = none →
      getCachedData s.cache key t = none →
      minRequestInterval ≤ t - s.lastRequestTime →
      (loadData s key t (.success raw) w).state.lastRequestTime = t) := by
  refine ⟨fun h => ?_, fun h => ?_, fun s key out w hl h => ?_, fun s key raw w h1 h2 h3 => ?_⟩
  · simp [canFetchNow, h]
  · simp [canFetchNow, not_lt.mpr h]
  · unfold loadData
    cases getLocalCachedData s.store key tn false with
    | some d => rfl
    | none =>
      cases getCachedData s.cache key tn with
      | some d => rfl
      | none =>
        rw [if_pos (by omega)]
  · unfold loadData
    rw [h1, h2, if_neg (by omega)]

/-- C6 witness: fetch recorded at t = 10000; a check at 12000 is denied, a
check at 15000 is allowed; a `loadData` attempt at 12000 makes no request,
and a fetching run at 10000 records 10000. -/
theorem c6_witness :
    ((12000 : Int) - 10000 < minRequestInterval ∧ canFetchNow 10000 12000 = false) ∧
    (minRequestInterval ≤ (15000 : Int) - 10000 ∧ canFetchNow 10000 15000 = true) ∧
    (loadData ⟨fun _ => none, fun _ => none, 10000, none⟩ "log_analysis_1" 12000
        .failure true).didFetch = false ∧
    (loadData ⟨fun _ => none, fun _ => none, 0, none⟩ "log_analysis_1" 10000
        (.success ⟨none, none, none, none, none, none, none, none, none, none⟩)
        true).state.lastRequestTime = 10000 :=
  ⟨⟨by decide, (c6_rate_limiter 10000 12000).1 (by decide)⟩,
   ⟨by decide, (c6_rate_limiter 10000 15000).2.1 (by decide)⟩,
   (c6_rate_limiter 10000 12000).2.2.1 ⟨fun _ => none, fun _ => none, 10000, none⟩
     "log_analysis_1" .failure true rfl (by decide),
   (c6_rate_limiter 10000 10000).2.2.2 ⟨fun _ => none, fun _ => none, 0, none⟩
     "log_analysis_1" ⟨none, none, none, none, none, none, none, none, none, none⟩ true
     (by decide) (by decide) (by decide)⟩

/-- C2 counterexample: `this.lastRequestTime = now` runs only on the
success path of `loadData` (log-types.js line 101), so when the first
manual refresh's live fetch fails, nothing is recorded and a second manual
refresh 1 ms later passes the rate guard and performs a second live fetch:
two network requests within the 5000 ms window, refuting "exactly one live
fetch". -/
theorem c2_failed_fetch_double_fetches :
    (refreshData ⟨fun _ => none, fun _ => none, 0, none⟩ "log_analysis_1" 5000
        .failure true).didFetch = true ∧
    (refreshData (refreshData ⟨fun _ => none, fun _ => none, 0, none⟩ "log_analysis_1" 5000
        .failure true).state "log_analysis_1" 5001 .failure true).didFetch = true := by
  constructor <;> decide

/-- C2 (amended): a manual refresh deletes the volatile entry for the key
and re-runs `loadData`; when the first refresh's live fetch succeeds, two
manual refreshes less than 5000 ms apart, starting from a state with no
fresh persistent entry and an open rate limiter, perform exactly one live
fetch — the first fetches, the second does not (it is served by the
just-written persistent entry, or stopped by the rate limiter, which
recorded the successful fetch's time). -/
theorem c2_manual_refresh_single_fetch (s : DashState) (key : String)
    (t0 t1 : Int) (raw : RawResponse) (w1 w2 : Bool) (out2 : FetchResult)
    (hlocal : getLocalCachedData s.store key t0 false = none)
    (hrate : minRequestInterval ≤ t0 - s.lastRequestTime)
    (h01 : t0 ≤ t1) (hwin : t1 - t0 < minRequestInterval) :
    (refreshData s key t0 (.success raw) w1).didFetch = true ∧
    (refreshData (refreshData s key t0 (.success raw) w1).state key t1 out2 w2).didFetch
      = false := by
  have r1eq : refreshData s key t0 (.success raw) w1 =
      ⟨⟨setCachedData (deleteCached s.cache key) key (normalize raw) t0,
        setLocalCachedData w1 s.store key (normalize raw) t0,
        t0, some (normalize raw)⟩, true, false, false, .fetchedOk⟩ := by
    unfold refreshData loadData
    simp only [hlocal, getCachedData_delete]
    rw [if_neg (by omega)]
  refine ⟨by rw [r1eq], ?_⟩
  rw [r1eq]
  unfold refreshData loadData
  cases w1 with
  | false =>
    have hl1 : getLocalCachedData (setLocalCachedData false s.store key (normalize raw) t0)
        key t1 false = none := by
      simpa [setLocalCachedData] using getLocal_none_mono s.store key t0 t1 h01 hlocal
    simp only [hl1, getCachedData_delete]
    rw [if_pos (by omega)]
  | true =>
    by_cases ht0 : t0 = 0
    · have hl1 : getLocalCachedData (setLocalCachedData true s.store key (normalize raw) t0)
          key t1 false = none := by
        simp [setLocalCachedData, getLocalCachedData, ht0]
      simp only [hl1, getCachedData_delete]
      rw [if_pos (by omega)]
    · have hl1 : getLocalCachedData (setLocalCachedData true s.store key (normalize raw) t0)
          key t1 false = some (normalize raw) := by
        have hfresh : t1 - t0 < localCacheTTL := by
          unfold minRequestInterval at hwin
          unfold localCacheTTL
          omega
        simp [setLocalCachedData, getLocalCachedData, ht0, hfresh]
      simp only [hl1]

/-- C2 witness: from an empty instance (lastRequestTime 0), refreshes at
t = 5000 and t = 5001 perform exactly one fetch. -/
theorem c2_witness :
    (getLocalCachedData (fun _ => none) "log_analysis_1" 5000 false = none ∧
     minRequestInterval ≤ (5000 : Int) - 0 ∧ (5000 : Int) ≤ 5001 ∧
     (5001 : Int) - 5000 < minRequestInterval) ∧
    ((refreshData ⟨fun _ => none, fun _ => none, 0, none⟩ "log_analysis_1" 5000
        (.success ⟨none, none, none, none, none, none, none, none, none, none⟩)
        true).didFetch = true ∧
     (refreshData (refreshData ⟨fun _ => none, fun _ => none, 0, none⟩ "log_analysis_1" 5000
        (.success ⟨none, none, none, none, none, none, none, none, none, none⟩)
        true).state "log_analysis_1" 5001 .failure true).didFetch = false) :=
  ⟨⟨by decide, by decide, by decide, by decide⟩,
   c2_manual_refresh_single_fetch ⟨fun _ => none, fun _ => none, 0, none⟩
     "log_analysis_1" 5000 5001
     ⟨none, none, none, none, none, none, none, none, none, none⟩ true true .failure
     (by decide) (by decide) (by decide) (by decide)⟩

/-- C7: normalization fills every required field with its default when the
field is absent from the raw response (counts 0, mappings empty, sequences
empty, the two strings their fixed defaults); in particular a response
missing `recent_errors` yields the empty sequence, and the renderer then
shows the empty-state message rather than failing. -/
theorem c7_normalize_defaults (r : RawResponse) :
    (r.total_logs = none → (normalize r).total_logs = 0) ∧
    (r.cleaned_logs_count = none → (normalize r).cleaned_logs_count = 0) ∧
    (r.time_range = none → (normalize r).time_range = "最近1分钟") ∧
    (r.processing_status = none → (normalize r).processing_status = "unknown") ∧
    (r.business_modules = none → (normalize r).business_modules = []) ∧
    (r.error_categories = none → (normalize r).error_categories = []) ∧
    (r.error_types = none → (normalize r).error_types = []) ∧
    (r.severity_distribution = none → (normalize r).severity_distribution = []) ∧
    (r.cleaning_summary = none → (normalize r).cleaning_summary = []) ∧
    ((normalize r).recent_errors = r.recent_errors.getD []) ∧
    (r.recent_errors = none →
      (normalize r).recent_errors = [] ∧
      renderRecentErrors (normalize r) = .emptyState "暂无错误日志") := by
  refine ⟨fun h => ?_, fun h => ?_, fun h => ?_, fun h => ?_, fun h => ?_, fun h => ?_,
    fun h => ?_, fun h => ?_, fun h => ?_, rfl, fun h => ⟨?_, ?_⟩⟩ <;>
    simp [normalize, jsOrNat, jsOrStr, renderRecentErrors, h]

/-- C7 witness: Scenario A — the raw response carrying only
`total_logs = 5` normalizes with `recent_errors = []`, the empty-state
message is rendered, and `total_logs` is preserved as 5. -/
theorem c7_witness :
    ((⟨some 5, none, none, none, none, none, none, none, none, none⟩ :
        RawResponse).recent_errors = none) ∧
    ((normalize ⟨some 5, none, none, none, none, none, none, none, none, none⟩).recent_errors
        = [] ∧
      renderRecentErrors
        (normalize ⟨some 5, none, none, none, none, none, none, none, none, none⟩)
        = .emptyState "暂无错误日志") ∧
    (normalize ⟨some 5, none, none, none, none, none, none, none, none, none⟩).total_logs
        = 5 :=
  ⟨rfl,
   (c7_normalize_defaults
     ⟨some 5, none, none, none, none, none, none, none, none, none⟩).2.2.2.2.2.2.2.2.2.2
     rfl,
   by decide⟩

theorem sumValsAux_nonneg (m : StrMap) : ∀ acc : ℚ, 0 ≤ acc → 0 ≤ sumValsAux acc m := by
  induction m with
  | nil => intro acc h; simpa [sumValsAux] using h
  | cons p rest ih =>
    intro acc h
    exact ih _ (add_nonneg h (Nat.cast_nonneg _))

theorem sumValsAux_all_zero (m : StrMap) (hz : ∀ p ∈ m, p.2 = 0) :
    ∀ acc : ℚ, sumValsAux acc m = acc := by
  induction m with
  | nil => intro acc; rfl
  | cons p rest ih =>
    intro acc
    have hp : p.2 = 0 := hz p (by simp)
    have hrest : ∀ q ∈ rest, q.2 = 0 := fun q hq => hz q (by simp [hq])
    simp [sumValsAux, hp, ih hrest]

/-- C10: `getPercentage` is total on count mappings: a zero total (in
particular an all-zero mapping) yields 0 — the division is guarded, so no
undefined value can arise — and a nonzero total yields
`(value / total) * 100` rounded to one decimal place. -/
theorem c10_get_percentage (v : ℚ) (m : StrMap) :
    (sumVals m = 0 → getPercentage v m = 0) ∧
    (sumVals m ≠ 0 → getPercentage v m = toFixed1 (v / sumVals m * 100)) ∧
    ((∀ p ∈ m, p.2 = 0) → getPercentage v m = 0) := by
  have hnn : 0 ≤ sumVals m := sumValsAux_nonneg m 0 le_rfl
  refine ⟨fun h => ?_, fun h => ?_, fun h => ?_⟩
  · simp [getPercentage, h]
  · have hpos : 0 < sumVals m := lt_of_le_of_ne hnn (Ne.symm h)
    simp [getPercentage, hpos]
  · have h0 : sumVals m = 0 := sumValsAux_all_zero m h 0
    simp [getPercentage, h0]

/-- C10 witness: for the mapping a ↦ 1, b ↦ 2 and value 1 the result is
the guarded rounded percentage 33.3; for the all-zero mapping a ↦ 0 the
result is 0. -/
theorem c10_witness :
    (sumVals [("a", 1), ("b", 2)] ≠ 0 ∧
      getPercentage 1 [("a", 1), ("b", 2)]
        = toFixed1 (1 / sumVals [("a", 1), ("b", 2)] * 100)) ∧
    ((∀ p ∈ ([("a", 0)] : StrMap), p.2 = 0) ∧ getPercentage 1 [("a", 0)] = 0) ∧
    getPercentage 1 [("a", 1), ("b", 2)] = 333 / 10 :=
  ⟨⟨by norm_num [sumVals, sumValsAux],
    (c10_get_percentage 1 [("a", 1), ("b", 2)]).2.1 (by norm_num [sumVals, sumValsAux])⟩,
   ⟨by decide, (c10_get_percentage 1 [("a", 0)]).2.2 (by decide)⟩,
   by norm_num [getPercentage, sumVals, sumValsAux, toFixed1, round_eq]⟩

/-! ## Concrete scenarios for C1 and C3 -/

/-- A raw response with every field absent. -/
def emptyRaw : RawResponse := ⟨none, none, none, none, none, none, none, none, none, none⟩

/-- A persistent store holding a fresh entry for the default key, written at
t = 500. -/
def freshStore : LocalStore :=
  fun k => if k = "log_analysis_1" then
    some (.record (some 500) (some defaultSnapshot)) else none

/-- Dashboard state with an empty volatile cache, the fresh persistent entry
above, and an idle rate limiter. -/
def freshState : DashState := ⟨fun _ => none, freshStore, 0, none⟩

/-- A snapshot distinguishable from the default one. -/
def staleSnap : Snapshot := { defaultSnapshot with total_logs := 7 }

/-- A persistent store whose entry for the default key is 89000 ms old at
t = 90000 (timestamp 1000), hence stale for the 60000 ms TTL. -/
def staleStore : LocalStore :=
  fun k => if k = "log_analysis_1" then
    some (.record (some 1000) (some staleSnap)) else none

/-- Dashboard state with an empty volatile cache, the stale persistent entry
above, and an idle rate limiter. -/
def staleState : DashState := ⟨fun _ => none, staleStore, 0, none⟩

/-- C1: with a fresh persistent entry, `loadData` serves it immediately and
schedules a background `refreshData` — but that scheduled `refreshData`
only deletes the volatile entry, re-enters `loadData`, is served by the
still-fresh persistent entry again, performs no network request, updates no
cache, and schedules yet another refresh; so the promised background live
fetch never happens while the entry is fresh (even with a successful
response available). -/
theorem c1_background_refresh_never_fetches :
    (loadData freshState "log_analysis_1" 1000 (.success emptyRaw) true).branch
        = .servedLocal ∧
    (loadData freshState "log_analysis_1" 1000 (.success emptyRaw) true).state.data
        = some defaultSnapshot ∧
    (loadData freshState "log_analysis_1" 1000 (.success emptyRaw) true).scheduledRefresh
        = true ∧
    (loadData freshState "log_analysis_1" 1000 (.success emptyRaw) true).didFetch
        = false ∧
    (refreshData (loadData freshState "log_analysis_1" 1000 (.success emptyRaw) true).state
        "log_analysis_1" 1001 (.success emptyRaw) true).didFetch = false ∧
    (refreshData (loadData freshState "log_analysis_1" 1000 (.success emptyRaw) true).state
        "log_analysis_1" 1001 (.success emptyRaw) true).scheduledRefresh = true := by
  refine ⟨?_, ?_, ?_, ?_, ?_, ?_⟩ <;> decide

/-- C3 counterexample: when the live fetch fails and a stale persistent
entry exists, `loadData` serves it with `errorShown = false` — `showError`
is the only user-surfacing call `loadData` makes, so no "showing cached
data" / stale-data indicator of any kind is surfaced, contrary to the
claim. -/
theorem c3_stale_served_silently :
    (loadData staleState "log_analysis_1" 90000 .failure true).branch = .fetchedFallback ∧
    (loadData staleState "log_analysis_1" 90000 .failure true).state.data = some staleSnap ∧
    (loadData staleState "log_analysis_1" 90000 .failure true).errorShown = false := by
  refine ⟨?_, ?_, ?_⟩ <;> decide

/-- C3 amended: whenever a live fetch fails, a stale persistent entry (read
with allowStale = true) is served silently, with no user-visible indicator
of any kind; only when no such entry exists is the default snapshot
installed together with the user-visible error banner (`showError`). -/
theorem c3_amended_fallback_behavior (s : DashState) (key : String) (now : Int)
    (w : Bool)
    (h1 : getLocalCachedData s.store key now false = none)
    (h2 : getCachedData s.cache key now = none)
    (h3 : minRequestInterval ≤ now - s.lastRequestTime) :
    (∀ d, getLocalCachedData s.store key now true = some d →
      (loadData s key now .failure w).state.data = some d ∧
      (loadData s key now .failure w).errorShown = false) ∧
    (getLocalCachedData s.store key now true = none →
      (loadData s key now .failure w).state.data = some defaultSnapshot ∧
      (loadData s key now .failure w).errorShown = true) := by
  unfold loadData
  rw [h1, h2, if_neg (by omega)]
  constructor
  · intro d hd
    rw [hd]
    exact ⟨rfl, rfl⟩
  · intro hd
    rw [hd]
    exact ⟨rfl, rfl⟩

/-- C3 witness: the stale-entry state at t = 90000 satisfies the amended
claim's hypotheses; the stale payload is served silently. -/
theorem c3_witness :
    (getLocalCachedData staleState.store "log_analysis_1" 90000 false = none ∧
     getCachedData staleState.cache "log_analysis_1" 90000 = none ∧
     minRequestInterval ≤ (90000 : Int) - staleState.lastRequestTime ∧
     getLocalCachedData staleState.store "log_analysis_1" 90000 true = some staleSnap) ∧
    ((loadData staleState "log_analysis_1" 90000 .failure true).state.data
        = some staleSnap ∧
     (loadData staleState "log_analysis_1" 90000 .failure true).errorShown = false) :=
  ⟨⟨by decide, by decide, by decide, by decide⟩,
   (c3_amended_fallback_behavior staleState "log_analysis_1" 90000 true
     (by decide) (by decide) (by decide)).1 staleSnap (by decide)⟩

/-! ## Lemmas for `escapeHtml` -/

theorem replaceChar_cons (c : Char) (rep : List Char) (x : Char) (s : List Char) :
    replaceChar c rep (x :: s) = (if x = c then rep else [x]) ++ replaceChar c rep s := by
  simp [replaceChar]

theorem replaceChar_append (c : Char) (rep a b : List Char) :
    replaceChar c rep (a ++ b) = replaceChar c rep a ++ replaceChar c rep b := by
  simp [replaceChar]

theorem replaceChar_single (c : Char) (rep : List Char) (x : Char) (h : ¬ (x = c)) :
    replaceChar c rep [x] = [x] := by
  simp [replaceChar, h]

/-- The five sequential global replacements act on the head character
independently of the tail: later stages never rewrite inside an entity
introduced by an earlier stage (entities contain none of the later
patterns). -/
theorem escapeHtml_some_cons (c : Char) (s : List Char) :
    escapeHtml (some (c :: s)) = escChar c ++ escapeHtml (some s) := by
  show replaceChar aposChar entApos (replaceChar quotChar entQuot (replaceChar '>' entGt
      (replaceChar '<' entLt (replaceChar '&' entAmp (c :: s))))) =
    escChar c ++ replaceChar aposChar entApos (replaceChar quotChar entQuot
      (replaceChar '>' entGt (replaceChar '<' entLt (replaceChar '&' entAmp s))))
  by_cases h1 : c = '&'
  · subst h1
    rw [replaceChar_cons, if_pos rfl, replaceChar_append,
      (by decide : replaceChar '<' entLt entAmp = entAmp), replaceChar_append,
      (by decide : replaceChar '>' entGt entAmp = entAmp), replaceChar_append,
      (by decide : replaceChar quotChar entQuot entAmp = entAmp), replaceChar_append,
      (by decide : replaceChar aposChar entApos entAmp = entAmp),
      (by decide : escChar '&' = entAmp)]
  by_cases h2 : c = '<'
  · subst h2
    rw [replaceChar_cons, if_neg (by decide), replaceChar_append,
      (by decide : replaceChar '<' entLt ['<'] = entLt), replaceChar_append,
      (by decide : replaceChar '>' entGt entLt = entLt), replaceChar_append,
      (by decide : replaceChar quotChar entQuot entLt = entLt), replaceChar_append,
      (by decide : replaceChar aposChar entApos entLt = entLt),
      (by decide : escChar '<' = entLt)]
  by_cases h3 : c = '>'
  · subst h3
    rw [replaceChar_cons, if_neg (by decide), replaceChar_append,
      (by decide : replaceChar '<' entLt ['>'] = ['>']), replaceChar_append,
      (by decide : replaceChar '>' entGt ['>'] = entGt), replaceChar_append,
      (by decide : replaceChar quotChar entQuot entGt = entGt), replaceChar_append,
      (by decide : replaceChar aposChar entApos entGt = entGt),
      (by decide : escChar '>' = entGt)]
  by_cases h4 : c = quotChar
  · subst h4
    rw [replaceChar_cons, if_neg (by decide), replaceChar_append,
      (by decide : replaceChar '<' entLt [quotChar] = [quotChar]), replaceChar_append,
      (by decide : replaceChar '>' entGt [quotChar] = [quotChar]), replaceChar_append,
      (by decide : replaceChar quotChar entQuot [quotChar] = entQuot), replaceChar_append,
      (by decide : replaceChar aposChar entApos entQuot = entQuot),
      (by decide : escChar quotChar = entQuot)]
  by_cases h5 : c = aposChar
  · subst h5
    rw [replaceChar_cons, if_neg (by decide), replaceChar_append,
      (by decide : replaceChar '<' entLt [aposChar] = [aposChar]), replaceChar_append,
      (by decide : replaceChar '>' entGt [aposChar] = [aposChar]), replaceChar_append,
      (by decide : replaceChar quotChar entQuot [aposChar] = [aposChar]), replaceChar_append,
      (by decide : replaceChar aposChar entApos [aposChar] = entApos),
      (by decide : escChar aposChar = entApos)]
  · rw [replaceChar_cons, if_neg h1, replaceChar_append, replaceChar_single _ _ _ h2,
      replaceChar_append, replaceChar_single _ _ _ h3,
      replaceChar_append, replaceChar_single _ _ _ h4,
      replaceChar_append, replaceChar_single _ _ _ h5,
      (show escChar c = [c] by simp [escChar, h1, h2, h3, h4, h5])]

/-- Every character of the escaped output is either a surviving safe
character of the input or a character of one of the five entities; in
particular no raw `<`, `>`, `"` or `'` survives. -/
theorem escapeHtml_no_raw_specials (s : List Char) :
    ∀ x ∈ escapeHtml (some s),
      x ≠ '<' ∧ x ≠ '>' ∧ x ≠ quotChar ∧ x ≠ aposChar := by
  induction s with
  | nil =>
    intro x hx
    simp [escapeHtml, replaceChar] at hx
  | cons c s ih =>
    intro x hx
    rw [escapeHtml_some_cons] at hx
    rcases List.mem_append.mp hx with h | h
    · by_cases h1 : c = '&'
      · subst h1
        rw [(by decide : escChar '&' = entAmp)] at h
        simp only [entAmp, List.mem_cons, List.not_mem_nil, or_false] at h
        rcases h with rfl | rfl | rfl | rfl | rfl <;> decide
      by_cases h2 : c = '<'
      · subst h2
        rw [(by decide : escChar '<' = entLt)] at h
        simp only [entLt, List.mem_cons, List.not_mem_nil, or_false] at h
        rcases h with rfl | rfl | rfl | rfl <;> decide
      by_cases h3 : c = '>'
      · subst h3
        rw [(by decide : escChar '>' = entGt)] at h
        simp only [entGt, List.mem_cons, List.not_mem_nil, or_false] at h
        rcases h with rfl | rfl | rfl | rfl <;> decide
      by_cases h4 : c = quotChar
      · subst h4
        rw [(by decide : escChar quotChar = entQuot)] at h
        simp only [entQuot, List.mem_cons, List.not_mem_nil, or_false] at h
        rcases h with rfl | rfl | rfl | rfl | rfl | rfl <;> decide
      by_cases h5 : c = aposChar
      · subst h5
        rw [(by decide : escChar aposChar = entApos)] at h
        simp only [entApos, List.mem_cons, List.not_mem_nil, or_false] at h
        rcases h with rfl | rfl | rfl | rfl | rfl <;> decide
      · rw [(show escChar c = [c] by simp [escChar, h1, h2, h3, h4, h5])] at h
        simp only [List.mem_cons, List.not_mem_nil, or_false] at h
        subst h
        exact ⟨h2, h3, h4, h5⟩
    · exact ih x h

/-- The escaped output is a concatenation of safe characters and complete
entities: every `&` it contains begins an entity. -/
theorem escapeHtml_escaped (s : List Char) : Escaped (escapeHtml (some s)) := by
  induction s with
  | nil => exact Escaped.nil
  | cons c s ih =>
    rw [escapeHtml_some_cons]
    by_cases h1 : c = '&'
    · subst h1
      rw [(by decide : escChar '&' = entAmp)]
      exact Escaped.ent (by simp) ih
    by_cases h2 : c = '<'
    · subst h2
      rw [(by decide : escChar '<' = entLt)]
      exact Escaped.ent (by simp) ih
    by_cases h3 : c = '>'
    · subst h3
      rw [(by decide : escChar '>' = entGt)]
      exact Escaped.ent (by simp) ih
    by_cases h4 : c = quotChar
    · subst h4
      rw [(by decide : escChar quotChar = entQuot)]
      exact Escaped.ent (by simp) ih
    by_cases h5 : c = aposChar
    · subst h5
      rw [(by decide : escChar aposChar = entApos)]
      exact Escaped.ent (by simp) ih
    · rw [(show escChar c = [c] by simp [escChar, h1, h2, h3, h4, h5]),
        List.singleton_append]
      exact Escaped.safe h1 h2 h3 h4 h5 ih

/-- C9: `escapeHtml` maps `null`/`undefined` to the empty string; on any
string its output is a concatenation of safe characters and the five HTML
entities (each special character replaced by its entity, so every `&` is
part of an entity), and no raw `<`, `>`, `"` or `'` remains — text passed
through it cannot break out of an HTML attribute or element. -/
theorem c9_escape_html :
    escapeHtml none = [] ∧
    (∀ c s, escapeHtml (some (c :: s)) = escChar c ++ escapeHtml (some s)) ∧
    (∀ s, Escaped (escapeHtml (some s))) ∧
    (∀ s, ∀ x ∈ escapeHtml (some s),
      x ≠ '<' ∧ x ≠ '>' ∧ x ≠ quotChar ∧ x ≠ aposChar) :=
  ⟨rfl, escapeHtml_some_cons, escapeHtml_escaped, escapeHtml_no_raw_specials⟩

/-- C9 witness: escaping the string a<b leaves the safe character a and
replaces the rest; the surviving character a is none of the four raw
specials. -/
theorem c9_witness :
    ('a' ∈ escapeHtml (some ['a', '<'])) ∧
    ('a' ≠ '<' ∧ 'a' ≠ '>' ∧ 'a' ≠ quotChar ∧ 'a' ≠ aposChar) :=
  ⟨by decide, c9_escape_html.2.2.2 ['a', '<'] 'a' (by decide)⟩

end AiOps
